import Mathlib

/-!
Verification development for the `svod_rcgn` face-recognition pipeline.

The development shallowly embeds the two core modules:

* `svod_rcgn/recognize/video_notify.py` — the temporal debouncer
  (`InVideoDetected`): a sliding window of presence bits, a probability
  threshold, an edge-triggered one-shot notification flag, and a cooldown.
* `svod_rcgn/recognize/detector.py` — the classifier-ensemble loader
  (`Detector.load_classifiers`) and the per-face score-fusion engine
  (`Detector.process_output`, `Detector.process_frame`).

Machine reals (Python floats) are modelled as rationals `ℚ`; timestamps are
rationals; external collaborators (sklearn models, the OpenVINO networks,
image cropping) are passed in as explicit oracle data.  Fallible code
(pickle-load consistency checks that `raise`) is modelled by returning the
mutated object state together with an optional raised-error message.
-/

namespace Svod

/-! ### Temporal debouncer: `svod_rcgn/recognize/video_notify.py` -/

/-- The per-face object handed to `InVideoDetected.exists_in_frame`
(a processed face verdict).  Only the attributes the debouncer reads are
modelled: `looks_like`, `prob` (optional confidence) and `bbox`. -/
structure Processed where
  looks_like : List ℕ
  prob : Option ℚ
  bbox : List ℤ
deriving DecidableEq

/-- The class-level configuration of `InVideoDetected`.  Python holds these
as mutable class attributes; `init_in_video_detected` assigns
`InVideoDetected.notify_period`, `InVideoDetected.prob` (sic — a fresh class
attribute, not `notify_prob`) and `InVideoDetected.stay_notified`.  The extra
field `prob_attr` models that class attribute `prob`, which every instance
shadows with its own `self.prob`. -/
structure IVDParams where
  notify_period : ℚ
  notify_prob : ℚ
  stay_notified : ℚ
  prob_attr : Option ℚ
deriving DecidableEq

/-- Class-body defaults: `notify_period = 3`, `notify_prob = .5`,
`stay_notified = 120`; no class attribute `prob` exists initially. -/
def defaultParams : IVDParams :=
  { notify_period := 3, notify_prob := 1/2, stay_notified := 120, prob_attr := none }

/-- The mutable instance state of `InVideoDetected` (fields set in
`__init__`).  The crop stored in `self.image` is modelled as the pair of the
frame identifier and the bounding box it was cropped by. -/
structure IVDState where
  done : Bool
  prob : ℚ
  not_detected_anymore : Bool
  in_frames : List ℚ
  in_frames_ts : List ℚ
  notified_awaiting : Bool
  notified : Bool
  notified_ts : Option ℚ
  looks_like : List ℕ
  image : Option (ℕ × List ℤ)
deriving DecidableEq

/-- `InVideoDetected.__init__`. -/
def IVDState.init : IVDState :=
  { done := false, prob := 0, not_detected_anymore := false
  , in_frames := [], in_frames_ts := []
  , notified_awaiting := false, notified := false, notified_ts := none
  , looks_like := [], image := none }

/-- `InVideoDetected.prepare`. -/
def prepare (s : IVDState) : IVDState := { s with done := false }

/-- The `while` loop of `exists_in_frame`: drop the oldest sample while more
than one timestamp remains and the oldest is older than `notify_period`;
returns the pruned bit list, the pruned timestamp list, and the
`period_filled` flag. -/
def pruneWindow (period now : ℚ) : List ℚ → List ℚ → Bool → List ℚ × List ℚ × Bool
  | fr, t :: t2 :: ts, _pf =>
      if now - t > period then pruneWindow period now fr.tail (t2 :: ts) true
      else (fr, t :: t2 :: ts, _pf)
  | fr, ts, _pf => (fr, ts, _pf)

/-- `sum(self.in_frames) / len(self.in_frames)`. -/
def listMean (l : List ℚ) : ℚ := l.sum / (l.length : ℚ)

/-- The first part of `exists_in_frame` under `if not self.done`: append the
presence bit and timestamp, then prune.  Returns the updated state together
with `period_filled`. -/
def windowUpdate (p : IVDParams) (s : IVDState) (present : Bool) (now : ℚ) :
    IVDState × Bool :=
  let fr := s.in_frames ++ [if present then 1 else 0]
  let ts := s.in_frames_ts ++ [now]
  let r := pruneWindow p.notify_period now fr ts false
  ({ s with in_frames := r.1, in_frames_ts := r.2.1 }, r.2.2)

/-- The `if period_filled:` block of `exists_in_frame`: recompute the window
probability, expire the notified state after `stay_notified`, raise the
edge-triggered notification, and mark the end of an episode. -/
def notifyUpdate (p : IVDParams) (s : IVDState) (now : ℚ) : IVDState :=
  let s1 : IVDState := { s with prob := listMean s.in_frames }
  let s2 : IVDState :=
    if s1.notified = true ∧ now - s1.notified_ts.getD 0 > p.stay_notified then
      { s1 with notified := false, notified_ts := none }
    else s1
  let s3 : IVDState :=
    if s2.prob > p.notify_prob ∧ s2.notified = false then
      { s2 with notified := true, notified_awaiting := true, notified_ts := some now }
    else s2
  if s3.prob = 0 then { s3 with not_detected_anymore := true } else s3

/-- The window-plus-threshold portion of `exists_in_frame` (everything before
the `if processed:` block). -/
def preProcessed (p : IVDParams) (s : IVDState) (present : Bool) (now : ℚ) :
    IVDState :=
  if (windowUpdate p s present now).2 = true then
    notifyUpdate p (windowUpdate p s present now).1 now
  else (windowUpdate p s present now).1

/-- The `if processed:` block of `exists_in_frame`: merge `looks_like`
(dedup + sort), and store the verdict confidence into `self.prob` — the same
field as the window probability — when it exceeds the stored value and a
frame was supplied, cropping the snapshot. -/
def processedUpdate (s : IVDState) (pr : Processed) (frame : Option ℕ) : IVDState :=
  let s1 : IVDState :=
    if pr.looks_like ≠ [] then
      { s with looks_like := ((s.looks_like ++ pr.looks_like).dedup).mergeSort (· ≤ ·) }
    else s
  match pr.prob, frame with
  | some q, some f =>
      if q > s1.prob then { s1 with prob := q, image := some (f, pr.bbox) } else s1
  | _, _ => s1

/-- `InVideoDetected.exists_in_frame(processed, frame)`, with the wall clock
`time()` passed explicitly as `now`. -/
def exists_in_frame (p : IVDParams) (s : IVDState) (processed : Option Processed)
    (frame : Option ℕ) (now : ℚ) : IVDState :=
  if s.done = true then s
  else
    { (match processed with
       | some pr => processedUpdate (preProcessed p s processed.isSome now) pr frame
       | none => preProcessed p s processed.isSome now) with
      done := true }

/-- `InVideoDetected.make_notify`: single-shot read of the pending
notification flag. -/
def make_notify (s : IVDState) : IVDState × Bool :=
  if s.notified = true ∧ s.notified_awaiting = true then
    ({ s with notified_awaiting := false }, true)
  else (s, false)

/-- The command-line arguments consumed by `init_in_video_detected`. -/
structure NotifyArgs where
  notify_face_detection_period : ℚ
  notify_face_detection_prob : ℚ
  notify_face_detection_stay : ℚ
deriving DecidableEq

/-- `init_in_video_detected(args)`: assigns the class attributes
`notify_period`, `prob` (not `notify_prob`!) and `stay_notified`. -/
def init_in_video_detected (a : NotifyArgs) (c : IVDParams) : IVDParams :=
  { c with
      notify_period := a.notify_face_detection_period,
      prob_attr := some a.notify_face_detection_prob,
      stay_notified := a.notify_face_detection_stay }

/-! Event traces over one debouncer instance: each frame cycle the caller may
call `prepare`, then `exists_in_frame`, then poll `make_notify`. -/

/-- One call made by the orchestrator on a debouncer instance. -/
inductive Event
  | prepare : Event
  | frame (processed : Option Processed) (fr : Option ℕ) (now : ℚ) : Event
  | poll : Event

/-- Number of `make_notify` polls in a trace. -/
def countPolls : List Event → ℕ
  | [] => 0
  | Event.poll :: es => countPolls es + 1
  | _ :: es => countPolls es

/-- Every `frame` event in the trace happens at most `stay` seconds after
`t0`. -/
def timeOKb (t0 stay : ℚ) : Event → Bool
  | Event.frame _ _ now => decide (now - t0 ≤ stay)
  | _ => true

/-- Run a trace of calls against a debouncer state, counting how many
`make_notify` polls returned `true`. -/
def runTrace (p : IVDParams) : IVDState → List Event → IVDState × ℕ
  | s, [] => (s, 0)
  | s, Event.prepare :: es => runTrace p (prepare s) es
  | s, Event.frame pr f now :: es => runTrace p (exists_in_frame p s pr f now) es
  | s, Event.poll :: es =>
      let r := make_notify s
      let r2 := runTrace p r.1 es
      (r2.1, r2.2 + (if r.2 = true then 1 else 0))

/-! ### Detector: `svod_rcgn/recognize/detector.py` -/

/-- A deserialized classifier artifact's model object, as discriminated by
`load_classifiers` (`isinstance(clf, svm.SVC)` / `KNeighborsClassifier` /
anything else).  The SVM carries `clf.shape_fit_[1]`; the kNN carries
`clf._fit_X.shape[1]` and the training labels `clf._y`. -/
inductive Clf
  | svm (shapeFit1 : ℕ)
  | knn (fitDim : ℕ) (y : List ℕ)
  | other
deriving DecidableEq

/-- The `embedding_size` chosen at load time for each model kind
(`512` is the hard-coded fallback for unsupported kinds). -/
def embeddingSizeOf : Clf → ℕ
  | Clf.svm sf => sf
  | Clf.knn d _ => d
  | Clf.other => 512

/-- The `classifier_name` chosen at load time: "SVM", "kNN", or the artifact
index rendered as a string. -/
def classifierNameOf (clfi : ℕ) : Clf → String
  | Clf.svm _ => "SVM"
  | Clf.knn _ _ => "kNN"
  | Clf.other => toString clfi

/-- One entry of `class_stats`; `process_output` reads
`class_stats[i]['embeddings']`. -/
structure ClassStat where
  embeddings : ℕ
deriving DecidableEq

/-- The `DetectorClassifiers` container: parallel lists of loaded models,
their display names and embedding sizes, plus the shared label space. -/
structure DetectorClassifiers where
  classifiers : List Clf
  classifier_names : List String
  embedding_sizes : List ℕ
  class_names : Option (List String)
  class_stats : Option (List ClassStat)
deriving DecidableEq

/-- `DetectorClassifiers.__init__`. -/
def emptyClassifiers : DetectorClassifiers := ⟨[], [], [], none, none⟩

/-- One pickle artifact: the tuple `(clf, class_names, class_stats)`. -/
structure Artifact where
  clf : Clf
  class_names : List String
  class_stats : List ClassStat
deriving DecidableEq

/-- The per-artifact body of the `load_classifiers` loop: check the label
space against the one established by the first artifact, then append the
model, its name and its embedding size.  A mismatch raises
`RuntimeError("Different class names in classifiers")` (resp. stats). -/
def loadOne (clfi : ℕ) (a : Artifact) (acc : DetectorClassifiers) :
    Except String DetectorClassifiers :=
  let checkedNames : Except String (List String) :=
    match acc.class_names with
    | none => Except.ok a.class_names
    | some cn =>
        if a.class_names ≠ cn then Except.error "Different class names in classifiers"
        else Except.ok cn
  let checkedStats : Except String (List ClassStat) :=
    match acc.class_stats with
    | none => Except.ok a.class_stats
    | some cs =>
        if a.class_stats ≠ cs then Except.error "Different class stats in classifiers"
        else Except.ok cs
  match checkedNames with
  | Except.error e => Except.error e
  | Except.ok cn =>
      match checkedStats with
      | Except.error e => Except.error e
      | Except.ok cs =>
          Except.ok
            { classifiers := acc.classifiers ++ [a.clf]
            , classifier_names := acc.classifier_names ++ [classifierNameOf clfi a.clf]
            , embedding_sizes := acc.embedding_sizes ++ [embeddingSizeOf a.clf]
            , class_names := some cn
            , class_stats := some cs }

/-- The `for clfi, clf in enumerate(classifiers)` loop of
`load_classifiers`, building the fresh `DetectorClassifiers`; the first
raised error aborts the loop. -/
def loadLoop : ℕ → DetectorClassifiers → List Artifact → Except String DetectorClassifiers
  | _, acc, [] => Except.ok acc
  | clfi, acc, a :: rest =>
      match loadOne clfi a acc with
      | Except.error e => Except.error e
      | Except.ok acc2 => loadLoop (clfi + 1) acc2 rest

/-- The `Detector` attributes relevant to loading and per-frame processing. -/
structure DetectorState where
  model_dir : Bool
  use_classifiers : Bool
  classifiers : DetectorClassifiers
  debug : Bool
deriving DecidableEq

/-- `Detector.load_classifiers`, with the globbed artifact files passed as
the deserialized list.  Python mutates `self`: `use_classifiers` is set to
`False` *before* the loop, and the new ensemble is installed only after the
whole loop succeeds; a raised consistency error therefore leaves the old
`self.classifiers` in place but `use_classifiers == False`.  The second
component is the raised error message, if any. -/
def load_classifiers (st : DetectorState) (artifacts : List Artifact) :
    DetectorState × Option String :=
  if st.model_dir = false then (st, none)
  else
    let st1 : DetectorState := { st with use_classifiers := false }
    if artifacts.length > 0 then
      match loadLoop 0 emptyClassifiers artifacts with
      | Except.error e => (st1, some e)
      | Except.ok newc => ({ st1 with classifiers := newc, use_classifiers := true }, none)
    else (st1, none)

/-! Score fusion: `Detector.process_output`. -/

/-- `max(0, min(1, x))`. -/
def clamp01 (x : ℚ) : ℚ := max 0 (min 1 x)

/-- Helper for `npArgmax`: scan with current best index and value;
ties keep the earliest index, as `np.argmax` does. -/
def npArgmaxAux : List ℚ → ℕ → ℕ → ℚ → ℕ
  | [], _, bi, _ => bi
  | x :: xs, i, bi, bv =>
      if x > bv then npArgmaxAux xs (i + 1) i x else npArgmaxAux xs (i + 1) bi bv

/-- `np.argmax` over one probability row. -/
def npArgmax : List ℚ → ℕ
  | [] => 0
  | x :: xs => npArgmaxAux xs 1 0 x

/-- The `first_cnt` loop of the kNN branch: count neighbors (in distance
order) whose training label `clf._y[i]` equals the predicted class, stopping
at the first mismatch (a leading run). -/
def leadingRun (y : List ℕ) (best : ℕ) : List ℕ → ℕ
  | [] => 0
  | i :: rest => if y.getD i 0 ≠ best then 0 else leadingRun y best rest + 1

/-- The kNN per-classifier probability:
`max(0, min(1, 2 * first_cnt / cnt - .5)) * max(0, min(1, 2.5 - d * 3))`. -/
def knnProb (first_cnt cnt : ℕ) (d : ℚ) : ℚ :=
  clamp01 (2 * (first_cnt : ℚ) / (cnt : ℚ) - 1/2) * clamp01 (5/2 - d * 3)

/-- The SVM per-classifier probability: `max(0, min(1, p * 10))`. -/
def svmProb (p : ℚ) : ℚ := clamp01 (p * 10)

/-- The sklearn responses for one classifier on the current embedding:
`predict_proba(output)[0]` and `kneighbors(output, n_neighbors=n)`
(the distances row and the indices row), passed as oracle data. -/
structure ClfEval where
  proba : List ℚ
  kneighbors : ℕ → List ℚ × List ℕ

/-- Rendering of `'%.1f%%' % (q * 100)` (float formatting abstracted to the
exact rational rendered by `toString`). -/
def fmtPct (q : ℚ) : String := toString (q * 100) ++ "%"

/-- Rendering of the kNN debug string `'%.3f %d/%d'`. -/
def fmtKnn (d : ℚ) (first_cnt cnt : ℕ) : String :=
  toString d ++ " " ++ toString first_cnt ++ "/" ++ toString cnt

/-- The accumulator threaded through the classifier loop of
`process_output`. -/
structure POAcc where
  detected_indices : List ℕ
  label_strings : List String
  probs : List ℚ
  prob_detected : Bool
  summary_overlay_label : String
deriving DecidableEq

/-- Initial accumulator values of `process_output`. -/
def initAcc : POAcc := ⟨[], [], [], true, ""⟩

/-- The body of `for i in range(len(best_class_indices))` (a single sample,
so a single iteration): record the predicted index and probability, clear
`prob_detected` when the probability is not positive, and build the label
strings.  `cnames` is `self.classifiers.class_names`. -/
def poAppend (cnames : Option (List String)) (debug : Bool) (name : String) (best : ℕ)
    (prob : ℚ) (dbg : String) (acc : POAcc) : POAcc :=
  let overlay_label := (cnames.getD []).getD best ""
  let label_debug_info :=
    name ++ ": " ++ fmtPct prob ++ " " ++ overlay_label ++ " (" ++ dbg ++ ")"
  { detected_indices := acc.detected_indices ++ [best]
  , summary_overlay_label := overlay_label
  , probs := acc.probs ++ [prob]
  , prob_detected := if prob ≤ 0 then false else acc.prob_detected
  , label_strings :=
      if debug = true then acc.label_strings ++ [label_debug_info]
      else if acc.label_strings = [] then acc.label_strings ++ [overlay_label]
      else acc.label_strings }

/-- One iteration of the classifier loop of `process_output`: skip the
classifier when the embedding cannot be reshaped to its embedding size
(the caught `ValueError`), or when the model kind is unsupported; otherwise
compute the kind-specific probability and append. -/
def poStep (cnames : Option (List String)) (cstats : Option (List ClassStat))
    (debug : Bool) (output : List ℚ)
    (clf : Clf) (name : String) (esz : ℕ) (ev : ClfEval) (acc : POAcc) : POAcc :=
  if output.length ≠ esz then acc
  else
    let predictions := ev.proba
    let best := npArgmax predictions
    match clf with
    | Clf.knn _ y =>
        let cnt := ((cstats.getD []).getD best ⟨0⟩).embeddings
        let kn := ev.kneighbors cnt
        let first_cnt := leadingRun y best kn.2
        let d := kn.1.getD 0 0
        poAppend cnames debug name best (knnProb first_cnt cnt d) (fmtKnn d first_cnt cnt) acc
    | Clf.svm _ =>
        let p := predictions.getD best 0
        poAppend cnames debug name best (svmProb p) (fmtPct p) acc
    | Clf.other => acc

/-- The classifier loop of `process_output`, consuming the parallel lists
`classifiers`, `classifier_names`, `embedding_sizes` (and the per-classifier
sklearn responses) in lockstep. -/
def poLoop (cnames : Option (List String)) (cstats : Option (List ClassStat))
    (debug : Bool) (output : List ℚ) :
    List Clf → List String → List ℕ → List ClfEval → POAcc → POAcc
  | clf :: cs, name :: ns, esz :: es, ev :: evs, acc =>
      poLoop cnames cstats debug output cs ns es evs
        (poStep cnames cstats debug output clf name esz ev acc)
  | _, _, _, _, acc => acc

/-- The `bounding_boxes_overlay` dict returned by `process_output`. -/
structure FaceResult where
  bb : List ℤ
  thin : Bool
  color : ℕ × ℕ × ℕ
deriving DecidableEq

/-- The `overlay_label` dict returned by `process_output` (when any). -/
structure OverlayLabel where
  label : String
  left : ℤ
  top : ℤ
  right : ℤ
  bottom : ℤ
  color : ℕ × ℕ × ℕ
deriving DecidableEq

/-- The result of `process_output`.  Python returns the triple
`(bounding_boxes_overlay, overlay_label, mean_prob)`; the verdict internals
`detected`, `detected_indices`, `probs` and `label_strings` are exposed as
extra fields so properties can be stated about them. -/
structure POResult where
  overlay : FaceResult
  label : Option OverlayLabel
  mean_prob : ℚ
  detected : Bool
  detected_indices : List ℕ
  probs : List ℚ
  label_strings : List String
deriving DecidableEq

/-- `Detector.process_output(output, bbox)`: run every classifier, fuse the
votes (`detected` iff all predicted indices agree — `len(set(..)) == 1` —
and every probability is positive), average the probabilities when detected,
and build the overlay box and optional label. -/
def process_output (dc : DetectorClassifiers) (debug : Bool) (output : List ℚ)
    (evals : List ClfEval) (bbox : List ℤ) : POResult :=
  let acc := poLoop dc.class_names dc.class_stats debug output dc.classifiers
      dc.classifier_names dc.embedding_sizes evals initAcc
  let detected : Bool := decide (acc.detected_indices.dedup.length = 1) && acc.prob_detected
  let mean_prob : ℚ :=
    if detected = true then acc.probs.sum / (acc.probs.length : ℚ) else 0
  let label_strings :=
    if debug = true then
      if detected = true then
        acc.label_strings ++ ["Summary: " ++ fmtPct mean_prob ++ " " ++ acc.summary_overlay_label]
      else acc.label_strings ++ ["Summary: not detected"]
    else acc.label_strings
  let thin : Bool := ! detected
  let color : ℕ × ℕ × ℕ := if thin = true then (0, 0, 255) else (0, 255, 0)
  let overlay : FaceResult := ⟨bbox, thin, color⟩
  let overlay_label_str :=
    if debug = true then
      if label_strings ≠ [] then String.intercalate "\n" label_strings else ""
    else if detected = true then label_strings.getD 0 ""
    else ""
  let label : Option OverlayLabel :=
    if overlay_label_str ≠ "" then
      some ⟨overlay_label_str, bbox.getD 0 0, bbox.getD 1 0, bbox.getD 2 0, bbox.getD 3 0, color⟩
    else none
  ⟨overlay, label, mean_prob, detected, acc.detected_indices, acc.probs, label_strings⟩

/-- `Detector.process_frame` (overlay drawing elided): the externally
detected bounding boxes and, per box, the embedding produced by the facenet
network are passed in as oracle data, as are the sklearn responses (a
function of the embedding).  When `use_classifiers` is false the per-face
loop is skipped entirely and *empty* overlay and label lists are returned —
the detected boxes are dropped. -/
def process_frame (st : DetectorState) (boxes : List (List ℤ))
    (embeddings : List (List ℚ)) (evals : List ℚ → List ClfEval) :
    List FaceResult × List OverlayLabel :=
  if st.use_classifiers = true then
    let results := (embeddings.zip boxes).map
      (fun ob => process_output st.classifiers st.debug ob.1 (evals ob.1) ob.2)
    (results.map (fun r => r.overlay), results.filterMap (fun r => r.label))
  else ([], [])

/-! ### Concrete sample data used by witnesses and counterexamples -/

/-- A processed-face verdict carrying no confidence. -/
def prNone : Processed := ⟨[], none, []⟩

/-- Debouncer state after one `exists_in_frame` call at time 0 on a fresh
instance (one presence sample in the window, never pruned). -/
def dbFirstCall : IVDState := exists_in_frame defaultParams IVDState.init (some prNone) none 0

/-- A window state seeded with five samples (three absent, two present) all
but the first recent: presence mean after the next prune is 3/5. -/
def dbWindowState : IVDState :=
  { IVDState.init with in_frames := [0, 1, 1, 0, 0], in_frames_ts := [0, 8, 8, 8, 8] }

/-- Debouncer parameters after `init_in_video_detected` with a configured
notification probability of 0.9. -/
def configured09 : IVDParams := init_in_video_detected ⟨3, 9/10, 120⟩ defaultParams

/-- A pre-edge debouncer state: one presence sample at time 0, not notified. -/
def edgeState : IVDState :=
  { IVDState.init with in_frames := [1], in_frames_ts := [0] }

/-- A one-classifier (SVM) ensemble over two classes. -/
def sampleSvmDC : DetectorClassifiers :=
  ⟨[Clf.svm 2], ["SVM"], [2], some ["alice", "bob"], some [⟨3⟩, ⟨3⟩]⟩

/-- The sklearn response for `sampleSvmDC` on the sample embedding:
`predict_proba` returns `[0.3, 0.7]`. -/
def sampleSvmEval : ClfEval := ⟨[3/10, 7/10], fun _ => ([], [])⟩

/-- A previously loaded one-classifier ensemble. -/
def prevDC : DetectorClassifiers := ⟨[Clf.svm 2], ["SVM"], [2], some ["a"], some [⟨1⟩]⟩

/-- A detector that has successfully loaded `prevDC`. -/
def prevState : DetectorState := ⟨true, true, prevDC, false⟩

/-- An artifact whose class names are `["a"]`. -/
def artA : Artifact := ⟨Clf.svm 2, ["a"], [⟨1⟩]⟩

/-- An artifact whose class names are `["b"]`, disagreeing with `artA`. -/
def artB : Artifact := ⟨Clf.svm 2, ["b"], [⟨1⟩]⟩

/-- Two artifacts whose class-name lists disagree. -/
def mismatchArtifacts : List Artifact := [artA, artB]

/-- Training labels of a sample kNN classifier: a leading run of 7
zero-labelled references before the first mismatching label. -/
def yW : List ℕ := [0, 0, 0, 0, 0, 0, 0, 1, 0, 0]

/-- The `kneighbors` response of the sample kNN classifier: nearest distance
0.4, neighbor indices 0..9 in distance order. -/
def kneiW : ℕ → List ℚ × List ℕ := fun _ => ([2/5, 1/2], [0, 1, 2, 3, 4, 5, 6, 7, 8, 9])

/-! ### Helper lemmas -/

theorem windowUpdate_keep (p : IVDParams) (s : IVDState) (b : Bool) (now : ℚ) :
    (windowUpdate p s b now).1.notified = s.notified ∧
    (windowUpdate p s b now).1.notified_awaiting = s.notified_awaiting ∧
    (windowUpdate p s b now).1.notified_ts = s.notified_ts ∧
    (windowUpdate p s b now).1.prob = s.prob ∧
    (windowUpdate p s b now).1.done = s.done :=
  ⟨rfl, rfl, rfl, rfl, rfl⟩

theorem notifyUpdate_keep (p : IVDParams) (s : IVDState) (now t0 : ℚ)
    (hn : s.notified = true) (hts : s.notified_ts = some t0)
    (hT : now - t0 ≤ p.stay_notified) :
    (notifyUpdate p s now).notified = true ∧
    (notifyUpdate p s now).notified_awaiting = s.notified_awaiting ∧
    (notifyUpdate p s now).notified_ts = some t0 := by
  obtain ⟨d, pb, nd, fr, ts, aw, nt, nts, lk, im⟩ := s
  simp only [notifyUpdate] at *
  subst hn hts
  simp [not_lt.mpr hT]
  split <;> simp

theorem processedUpdate_keep (s : IVDState) (pr : Processed) (frame : Option ℕ) :
    (processedUpdate s pr frame).notified = s.notified ∧
    (processedUpdate s pr frame).notified_awaiting = s.notified_awaiting ∧
    (processedUpdate s pr frame).notified_ts = s.notified_ts := by
  obtain ⟨d, pb, nd, fr, ts, aw, nt, nts, lk, im⟩ := s
  unfold processedUpdate
  cases hpp : pr.prob <;> cases frame <;> split_ifs <;> simp [apply_ite]

theorem preProcessed_keep (p : IVDParams) (s : IVDState) (b : Bool) (now t0 : ℚ)
    (hn : s.notified = true) (hts : s.notified_ts = some t0)
    (hT : now - t0 ≤ p.stay_notified) :
    (preProcessed p s b now).notified = true ∧
    (preProcessed p s b now).notified_awaiting = s.notified_awaiting ∧
    (preProcessed p s b now).notified_ts = some t0 := by
  have hw := windowUpdate_keep p s b now
  unfold preProcessed
  split
  · have := notifyUpdate_keep p (windowUpdate p s b now).1 now t0
      (hw.1.trans hn) (hw.2.2.1.trans hts) hT
    exact ⟨this.1, this.2.1.trans hw.2.1, this.2.2⟩
  · exact ⟨hw.1.trans hn, hw.2.1, hw.2.2.1.trans hts⟩

theorem exists_in_frame_keep (p : IVDParams) (s : IVDState) (pr : Option Processed)
    (f : Option ℕ) (now t0 : ℚ)
    (hn : s.notified = true) (hts : s.notified_ts = some t0)
    (hT : now - t0 ≤ p.stay_notified) :
    (exists_in_frame p s pr f now).notified = true ∧
    (exists_in_frame p s pr f now).notified_awaiting = s.notified_awaiting ∧
    (exists_in_frame p s pr f now).notified_ts = some t0 := by
  unfold exists_in_frame
  by_cases hd : s.done = true
  · simp [hd, hn, hts]
  · simp only [hd, if_false]
    cases pr with
    | none =>
        have hpre := preProcessed_keep p s false now t0 hn hts hT
        simpa using hpre
    | some prv =>
        have hpre := preProcessed_keep p s true now t0 hn hts hT
        have hk := processedUpdate_keep (preProcessed p s true now) prv f
        refine ⟨?_, ?_, ?_⟩
        · simpa [hk.1] using hpre.1
        · simpa [hk.2.1] using hpre.2.1
        · simpa [hk.2.2] using hpre.2.2

theorem runTrace_count (p : IVDParams) (t0 : ℚ) :
    ∀ (es : List Event) (s : IVDState),
      s.notified = true → s.notified_ts = some t0 →
      (∀ ev ∈ es, timeOKb t0 p.stay_notified ev = true) →
      (runTrace p s es).2 = if s.notified_awaiting = true ∧ 0 < countPolls es then 1 else 0
  | [], s, _, _, _ => by simp [runTrace, countPolls]
  | Event.prepare :: es, s, hn, hts, hT => by
      have ih := runTrace_count p t0 es (prepare s) hn hts
        (fun ev hev => hT ev (List.mem_cons_of_mem _ hev))
      simp only [runTrace, countPolls]
      rw [ih]
      rfl
  | Event.frame pr f now :: es, s, hn, hts, hT => by
      have htime : now - t0 ≤ p.stay_notified := by
        have := hT _ (List.mem_cons_self _ _)
        simpa [timeOKb] using this
      have hk := exists_in_frame_keep p s pr f now t0 hn hts htime
      have ih := runTrace_count p t0 es (exists_in_frame p s pr f now) hk.1 hk.2.2
        (fun ev hev => hT ev (List.mem_cons_of_mem _ hev))
      simp only [runTrace, countPolls]
      rw [ih, hk.2.1]
  | Event.poll :: es, s, hn, hts, hT => by
      have hTtail : ∀ ev ∈ es, timeOKb t0 p.stay_notified ev = true :=
        fun ev hev => hT ev (List.mem_cons_of_mem _ hev)
      by_cases ha : s.notified_awaiting = true
      · have hmk : make_notify s = ({ s with notified_awaiting := false }, true) := by
          simp [make_notify, hn, ha]
        have ih := runTrace_count p t0 es ({ s with notified_awaiting := false }) hn hts hTtail
        simp only [runTrace, hmk, countPolls]
        rw [ih]
        simp [ha, countPolls]
      · have hmk : make_notify s = (s, false) := by
          simp [make_notify, ha]
        have ih := runTrace_count p t0 es s hn hts hTtail
        simp only [runTrace, hmk, countPolls]
        rw [ih]
        simp [ha]

theorem notifyUpdate_edge (p : IVDParams) (s : IVDState) (now : ℚ)
    (h0 : s.notified = false)
    (h1 : (notifyUpdate p s now).notified = true) :
    (notifyUpdate p s now).notified_awaiting = true ∧
    (notifyUpdate p s now).notified_ts = some now := by
  obtain ⟨d, pb, nd, fr, ts, aw, nt, nts, lk, im⟩ := s
  simp only at h0
  subst h0
  simp only [notifyUpdate] at h1 ⊢
  split_ifs at h1 ⊢ <;> simp_all

theorem preProcessed_edge (p : IVDParams) (s : IVDState) (b : Bool) (now : ℚ)
    (h0 : s.notified = false)
    (h1 : (preProcessed p s b now).notified = true) :
    (preProcessed p s b now).notified_awaiting = true ∧
    (preProcessed p s b now).notified_ts = some now := by
  have hw := windowUpdate_keep p s b now
  unfold preProcessed at h1 ⊢
  by_cases hpf : (windowUpdate p s b now).2 = true
  · simp only [hpf, if_true] at h1 ⊢
    exact notifyUpdate_edge p _ now (hw.1.trans h0) h1
  · simp only [hpf, if_false] at h1
    exact absurd (hw.1.symm.trans h1) (by simp [h0])

theorem exists_in_frame_edge (p : IVDParams) (s : IVDState) (pr : Option Processed)
    (f : Option ℕ) (t0 : ℚ)
    (h0 : s.notified = false)
    (h1 : (exists_in_frame p s pr f t0).notified = true) :
    (exists_in_frame p s pr f t0).notified_awaiting = true ∧
    (exists_in_frame p s pr f t0).notified_ts = some t0 := by
  unfold exists_in_frame at h1 ⊢
  by_cases hd : s.done = true
  · rw [if_pos hd] at h1
    exact absurd h1 (by simp [h0])
  · rw [if_neg hd] at h1 ⊢
    cases pr with
    | none =>
        simp only at h1 ⊢
        exact preProcessed_edge p s false t0 h0 (by simpa using h1)
    | some prv =>
        have hk := processedUpdate_keep (preProcessed p s true t0) prv f
        simp only at h1 ⊢
        have h1b : (preProcessed p s true t0).notified = true := by
          rw [← hk.1]; simpa using h1
        have he := preProcessed_edge p s true t0 h0 h1b
        constructor
        · show (processedUpdate (preProcessed p s true t0) prv f).notified_awaiting = true
          rw [hk.2.1]; exact he.1
        · show (processedUpdate (preProcessed p s true t0) prv f).notified_ts = some t0
          rw [hk.2.2]; exact he.2

theorem notifyUpdate_prob (p : IVDParams) (s : IVDState) (now : ℚ) :
    (notifyUpdate p s now).prob = listMean s.in_frames := by
  obtain ⟨d, pb, nd, fr, ts, aw, nt, nts, lk, im⟩ := s
  simp only [notifyUpdate]
  split_ifs <;> simp [apply_ite]

/-! ### Claim theorems: temporal debouncer -/

/-- Claim C5: for every debouncer instance, `make_notify` returns `true`
exactly once per idle-to-notified transition.  If a call to
`exists_in_frame` at time `t0` flips `notified` from `false` to `true`
(the edge), then over any following trace of `prepare` / `exists_in_frame` /
`make_notify` calls whose frame events all happen within `stay_notified`
seconds of `t0` and which polls `make_notify` at least once, exactly one
poll returns `true` — no matter how often the window probability is
recomputed during that span. -/
theorem C5_single_shot (p : IVDParams) (s0 : IVDState) (pr : Option Processed)
    (f : Option ℕ) (t0 : ℚ) (es : List Event)
    (h0 : s0.notified = false)
    (h1 : (exists_in_frame p s0 pr f t0).notified = true)
    (hT : ∀ ev ∈ es, timeOKb t0 p.stay_notified ev = true)
    (hp : 0 < countPolls es) :
    (runTrace p (exists_in_frame p s0 pr f t0) es).2 = 1 := by
  have he := exists_in_frame_edge p s0 pr f t0 h0 h1
  rw [runTrace_count p t0 es _ h1 he.2 hT]
  simp [he.1, hp]

/-- Witness for C5: a concrete pre-edge state (one presence sample at time
0), an edge-producing call at time 4 (window mean 1 crosses the default
threshold 0.5), and a trace with one poll yields exactly one `true`. -/
theorem C5_single_shot_witness :
    edgeState.notified = false ∧
    (exists_in_frame defaultParams edgeState (some prNone) none 4).notified = true ∧
    0 < countPolls [Event.poll] ∧
    (runTrace defaultParams (exists_in_frame defaultParams edgeState (some prNone) none 4)
      [Event.poll]).2 = 1 :=
  ⟨rfl,
   by norm_num [edgeState, prNone, exists_in_frame, preProcessed, windowUpdate, pruneWindow,
     notifyUpdate, processedUpdate, listMean, IVDState.init, defaultParams],
   by norm_num [countPolls],
   C5_single_shot defaultParams edgeState (some prNone) none 4 [Event.poll] rfl
     (by norm_num [edgeState, prNone, exists_in_frame, preProcessed, windowUpdate, pruneWindow,
       notifyUpdate, processedUpdate, listMean, IVDState.init, defaultParams])
     (by intro ev hev; simp at hev; subst hev; rfl)
     (by norm_num [countPolls])⟩

/-- Counterexample to claim C6 (recompute skipped on the very first pruning
event): starting from a fresh debouncer, the first call (time 0) leaves one
sample and `prob = 0`; the second call (time 4 > `notify_period` = 3) prunes
the window for the very first time — and the probability IS recomputed in
that same call, becoming 1 rather than staying 0 as the claim requires. -/
theorem C6_first_prune_counterexample :
    dbFirstCall.prob = 0 ∧
    dbFirstCall.in_frames_ts = [0] ∧
    (windowUpdate defaultParams (prepare dbFirstCall) true 4).2 = true ∧
    (exists_in_frame defaultParams (prepare dbFirstCall) (some prNone) none 4).prob = 1 := by
  refine ⟨?_, ?_, ?_, ?_⟩ <;>
    norm_num [dbFirstCall, prNone, exists_in_frame, preProcessed, windowUpdate, pruneWindow,
      notifyUpdate, processedUpdate, prepare, listMean, IVDState.init, defaultParams]

/-- Claim C6 as amended: the probability recompute fires in exactly the
calls in which at least one sample was pruned — including the very first
pruning event; until a call prunes, the stored probability is left
untouched.  (Stated for a frame with no face so the best-confidence path
does not also write the field.) -/
theorem C6_recompute_on_prune (p : IVDParams) (s : IVDState) (f : Option ℕ) (now : ℚ)
    (hdone : s.done = false) :
    (exists_in_frame p s none f now).prob =
      if (windowUpdate p s false now).2 = true
      then listMean (windowUpdate p s false now).1.in_frames
      else s.prob := by
  unfold exists_in_frame
  rw [hdone]
  simp only [Bool.false_eq_true, if_false]
  show (preProcessed p s false now).prob = _
  unfold preProcessed
  by_cases hpf : (windowUpdate p s false now).2 = true
  · simp only [hpf, if_true, notifyUpdate_prob]
  · simp only [hpf, if_false]
    exact (windowUpdate_keep p s false now).2.2.2.1

/-- Witness for the amended C6: on the concrete second call of
`C6_first_prune_counterexample` the window is pruned and the probability is
recomputed to the window mean. -/
theorem C6_recompute_on_prune_witness :
    (prepare dbFirstCall).done = false ∧
    (exists_in_frame defaultParams (prepare dbFirstCall) none none 4).prob =
      (if (windowUpdate defaultParams (prepare dbFirstCall) false 4).2 = true
       then listMean (windowUpdate defaultParams (prepare dbFirstCall) false 4).1.in_frames
       else (prepare dbFirstCall).prob) :=
  ⟨rfl, C6_recompute_on_prune defaultParams (prepare dbFirstCall) none 4 rfl⟩

/-- Claim C8: the debouncer defaults are `notify_period = 3`,
`notify_prob = 0.5`, `stay_notified = 120` (true), but the claim that all
three are externally configurable fails in the code:
`init_in_video_detected` assigns `InVideoDetected.prob` instead of
`InVideoDetected.notify_prob`, so after configuring a notification
probability of 0.9 the transition logic still compares against 0.5 — a
window probability of 3/5 still flips `notified` to `true`. -/
theorem C8_notify_prob_not_configured :
    defaultParams.notify_period = 3 ∧ defaultParams.notify_prob = 1/2 ∧
    defaultParams.stay_notified = 120 ∧
    configured09.notify_period = 3 ∧ configured09.stay_notified = 120 ∧
    configured09.prob_attr = some (9/10) ∧
    configured09.notify_prob = 1/2 ∧
    (exists_in_frame configured09 dbWindowState (some prNone) none 10).prob = 3/5 ∧
    (exists_in_frame configured09 dbWindowState (some prNone) none 10).notified = true := by
  refine ⟨rfl, rfl, rfl, ?_, ?_, ?_, ?_, ?_, ?_⟩ <;>
    norm_num [configured09, dbWindowState, prNone, exists_in_frame, preProcessed, windowUpdate,
      pruneWindow, notifyUpdate, processedUpdate, init_in_video_detected, listMean,
      IVDState.init, defaultParams]

/-- Claim C10 (implicit): the debouncer stores the sliding-window presence
probability and the best-seen verdict confidence in one and the same field
`prob`: whenever `exists_in_frame` is handed a verdict whose confidence
exceeds the probability stored at the moment of the comparison (i.e. after
the window update of the same call), with a frame supplied, the stored
probability afterwards equals that confidence. -/
theorem C10_shared_prob_field (p : IVDParams) (s : IVDState) (pr : Processed)
    (f : ℕ) (now q : ℚ)
    (hdone : s.done = false) (hq : pr.prob = some q)
    (hgt : (preProcessed p s true now).prob < q) :
    (exists_in_frame p s (some pr) (some f) now).prob = q := by
  unfold exists_in_frame
  rw [hdone]
  simp only [Bool.false_eq_true, if_false]
  show (processedUpdate (preProcessed p s true now) pr (some f)).prob = q
  unfold processedUpdate
  rw [hq]
  by_cases hl : pr.looks_like ≠ [] <;> simp only [hl, if_true, if_false, ite_not] <;>
    split_ifs <;> simp_all

/-- Witness for C10: a fresh debouncer, a verdict with confidence 3/4 and a
frame; after the call the stored probability is 3/4. -/
theorem C10_shared_prob_field_witness :
    IVDState.init.done = false ∧
    (⟨[], some (3/4), [1, 2]⟩ : Processed).prob = some (3/4) ∧
    (preProcessed defaultParams IVDState.init true 0).prob < 3/4 ∧
    (exists_in_frame defaultParams IVDState.init (some ⟨[], some (3/4), [1, 2]⟩)
      (some 5) 0).prob = 3/4 :=
  ⟨rfl, rfl,
   by norm_num [preProcessed, windowUpdate, pruneWindow, notifyUpdate, listMean,
     IVDState.init, defaultParams],
   C10_shared_prob_field defaultParams IVDState.init ⟨[], some (3/4), [1, 2]⟩ 5 0 (3/4) rfl rfl
     (by norm_num [preProcessed, windowUpdate, pruneWindow, notifyUpdate, listMean,
       IVDState.init, defaultParams])⟩

/-! ### Helper lemmas: score fusion -/

theorem poAppend_pd (cnames : Option (List String)) (debug : Bool) (name : String)
    (best : ℕ) (prob : ℚ) (dbg : String) (acc : POAcc)
    (h : acc.prob_detected = true ↔ ∀ q ∈ acc.probs, 0 < q) :
    (poAppend cnames debug name best prob dbg acc).prob_detected = true ↔
      ∀ q ∈ (poAppend cnames debug name best prob dbg acc).probs, 0 < q := by
  unfold poAppend
  simp only []
  by_cases hp : prob ≤ 0
  · rw [if_pos hp]
    exact iff_of_false (by simp)
      (fun hall => absurd (hall prob (by simp)) (not_lt.mpr hp))
  · rw [if_neg hp, h]
    constructor
    · intro hall q hq
      rcases List.mem_append.mp hq with hq2 | hq2
      · exact hall q hq2
      · rw [List.mem_singleton.mp hq2]; exact lt_of_not_le hp
    · intro hall q hq
      exact hall q (List.mem_append_left _ hq)

theorem poStep_pd (cnames : Option (List String)) (cstats : Option (List ClassStat))
    (debug : Bool) (output : List ℚ) (clf : Clf) (name : String) (esz : ℕ)
    (ev : ClfEval) (acc : POAcc)
    (h : acc.prob_detected = true ↔ ∀ q ∈ acc.probs, 0 < q) :
    (poStep cnames cstats debug output clf name esz ev acc).prob_detected = true ↔
      ∀ q ∈ (poStep cnames cstats debug output clf name esz ev acc).probs, 0 < q := by
  unfold poStep
  by_cases hsz : output.length ≠ esz
  · rw [if_pos hsz]; exact h
  · rw [if_neg hsz]
    cases clf with
    | svm sf => exact poAppend_pd _ _ _ _ _ _ _ h
    | knn d y => exact poAppend_pd _ _ _ _ _ _ _ h
    | other => exact h

theorem poLoop_pd (cnames : Option (List String)) (cstats : Option (List ClassStat))
    (debug : Bool) (output : List ℚ) :
    ∀ (cs : List Clf) (ns : List String) (es : List ℕ) (evs : List ClfEval) (acc : POAcc),
      (acc.prob_detected = true ↔ ∀ q ∈ acc.probs, 0 < q) →
      ((poLoop cnames cstats debug output cs ns es evs acc).prob_detected = true ↔
        ∀ q ∈ (poLoop cnames cstats debug output cs ns es evs acc).probs, 0 < q) := by
  intro cs
  induction cs with
  | nil => intro ns es evs acc h; simpa [poLoop] using h
  | cons c cs ih =>
      intro ns es evs acc h
      cases ns with
      | nil => simpa [poLoop] using h
      | cons n ns =>
          cases es with
          | nil => simpa [poLoop] using h
          | cons e es =>
              cases evs with
              | nil => simpa [poLoop] using h
              | cons v evs =>
                  simp only [poLoop]
                  exact ih ns es evs _ (poStep_pd _ _ _ _ _ _ _ _ _ h)

theorem dedup_singleton {l : List ℕ} (hne : l ≠ []) :
    l.dedup.length = 1 ↔ ∀ a ∈ l, ∀ b ∈ l, a = b := by
  constructor
  · intro h1 a ha b hb
    obtain ⟨x, hx⟩ := List.length_eq_one.mp h1
    have ha2 : a ∈ l.dedup := List.mem_dedup.mpr ha
    have hb2 : b ∈ l.dedup := List.mem_dedup.mpr hb
    rw [hx] at ha2 hb2
    simp at ha2 hb2
    rw [ha2, hb2]
  · intro hall
    obtain ⟨c, t, rfl⟩ := List.exists_cons_of_ne_nil hne
    have hmemc : c ∈ (c :: t).dedup := List.mem_dedup.mpr (List.mem_cons_self c t)
    have hx : ∀ x ∈ (c :: t).dedup, x = c := fun x hx =>
      hall x (List.mem_dedup.mp hx) c (List.mem_cons_self c t)
    have hnd : (c :: t).dedup.Nodup := List.nodup_dedup _
    cases hdd : (c :: t).dedup with
    | nil => rw [hdd] at hmemc; exact absurd hmemc (List.not_mem_nil c)
    | cons x r =>
        cases r with
        | nil => simp
        | cons y r2 =>
            rw [hdd] at hx hnd
            have hxc : x = c := hx x (by simp)
            have hyc : y = c := hx y (by simp)
            rw [List.nodup_cons] at hnd
            exact absurd (by rw [hxc, hyc]; simp : x ∈ y :: r2) hnd.1

theorem poLoop_skip (cnames : Option (List String)) (cstats : Option (List ClassStat))
    (debug : Bool) (out : List ℚ) (c : Clf) (n : String) (e : ℕ) (v : ClfEval)
    (cs : List Clf) (ns : List String) (es : List ℕ) (evs : List ClfEval) (acc : POAcc)
    (h : out.length ≠ e) :
    poLoop cnames cstats debug out (c :: cs) (n :: ns) (e :: es) (v :: evs) acc =
      poLoop cnames cstats debug out cs ns es evs acc := by
  simp [poLoop, poStep, h]

theorem poLoop_append (cnames : Option (List String)) (cstats : Option (List ClassStat))
    (debug : Bool) (out : List ℚ) :
    ∀ (cs1 : List Clf) (ns1 : List String) (es1 : List ℕ) (evs1 : List ClfEval)
      (cs2 : List Clf) (ns2 : List String) (es2 : List ℕ) (evs2 : List ClfEval) (acc : POAcc),
      cs1.length = ns1.length → cs1.length = es1.length → cs1.length = evs1.length →
      poLoop cnames cstats debug out (cs1 ++ cs2) (ns1 ++ ns2) (es1 ++ es2) (evs1 ++ evs2) acc =
        poLoop cnames cstats debug out cs2 ns2 es2 evs2
          (poLoop cnames cstats debug out cs1 ns1 es1 evs1 acc) := by
  intro cs1
  induction cs1 with
  | nil =>
      intro ns1 es1 evs1 cs2 ns2 es2 evs2 acc hn he hv
      rw [List.length_nil] at hn he hv
      rw [List.eq_nil_of_length_eq_zero hn.symm, List.eq_nil_of_length_eq_zero he.symm,
        List.eq_nil_of_length_eq_zero hv.symm]
      simp [poLoop]
  | cons c cs ih =>
      intro ns1 es1 evs1 cs2 ns2 es2 evs2 acc hn he hv
      cases ns1 with
      | nil => simp at hn
      | cons n ns =>
          cases es1 with
          | nil => simp at he
          | cons e es =>
              cases evs1 with
              | nil => simp at hv
              | cons v evs =>
                  simp only [List.cons_append, poLoop]
                  exact ih ns es evs cs2 ns2 es2 evs2 _
                    (by simpa using hn) (by simpa using he) (by simpa using hv)

theorem loadLoop_mismatch :
    ∀ (rest : List Artifact) (clfi : ℕ) (acc : DetectorClassifiers) (a b : Artifact),
      acc.class_names = some a.class_names → acc.class_stats = some a.class_stats →
      b ∈ rest → (b.class_names ≠ a.class_names ∨ b.class_stats ≠ a.class_stats) →
      ∃ e, loadLoop clfi acc rest = Except.error e := by
  intro rest
  induction rest with
  | nil => intro _ _ _ b _ _ hb _; exact absurd hb (List.not_mem_nil b)
  | cons c rest ih =>
      intro clfi acc a b hcn hcs hb hmis
      by_cases h1 : c.class_names = a.class_names
      · by_cases h2 : c.class_stats = a.class_stats
        · have hstep : loadLoop clfi acc (c :: rest) =
              loadLoop (clfi + 1)
                { classifiers := acc.classifiers ++ [c.clf]
                , classifier_names := acc.classifier_names ++ [classifierNameOf clfi c.clf]
                , embedding_sizes := acc.embedding_sizes ++ [embeddingSizeOf c.clf]
                , class_names := some a.class_names
                , class_stats := some a.class_stats } rest := by
            simp [loadLoop, loadOne, hcn, hcs, h1, h2]
          rw [hstep]
          rcases List.mem_cons.mp hb with hbc | hbr
          · subst hbc
            rcases hmis with hm | hm
            · exact absurd h1 hm
            · exact absurd h2 hm
          · exact ih (clfi + 1) _ a b rfl rfl hbr hmis
        · refine ⟨"Different class stats in classifiers", ?_⟩
          simp [loadLoop, loadOne, hcn, hcs, h1, h2]
      · refine ⟨"Different class names in classifiers", ?_⟩
        simp [loadLoop, loadOne, hcn, h1]

/-! ### Claim theorems: ensemble loading and score fusion -/

/-- Claim C1: for every run of `process_output` with at least one
contributing classifier, the verdict is `detected` iff every contributing
classifier predicted the same class index and every contributing
per-classifier probability is strictly positive (so two classifiers
predicting different indices force `detected = false` even at probability
1.0), and the fused confidence is the arithmetic mean of the contributing
probabilities when detected and 0 otherwise. -/
theorem C1_fusion (dc : DetectorClassifiers) (debug : Bool) (output : List ℚ)
    (evals : List ClfEval) (bbox : List ℤ)
    (hne : (process_output dc debug output evals bbox).detected_indices ≠ []) :
    ((process_output dc debug output evals bbox).detected = true ↔
      ((∀ a ∈ (process_output dc debug output evals bbox).detected_indices,
        ∀ b ∈ (process_output dc debug output evals bbox).detected_indices, a = b) ∧
       (∀ q ∈ (process_output dc debug output evals bbox).probs, 0 < q))) ∧
    (process_output dc debug output evals bbox).mean_prob =
      (if (process_output dc debug output evals bbox).detected = true
       then (process_output dc debug output evals bbox).probs.sum /
         ((process_output dc debug output evals bbox).probs.length : ℚ)
       else 0) := by
  simp only [process_output] at hne ⊢
  constructor
  · rw [Bool.and_eq_true, decide_eq_true_eq]
    rw [dedup_singleton hne]
    rw [poLoop_pd dc.class_names dc.class_stats debug output dc.classifiers
      dc.classifier_names dc.embedding_sizes evals initAcc (by simp [initAcc])]
  · trivial

/-- Witness for C1: a one-SVM ensemble on a concrete embedding contributes
the index 1 with probability 1, so the fusion law holds at that input. -/
theorem C1_fusion_witness :
    (process_output sampleSvmDC false [1/2, 1/2] [sampleSvmEval] [0, 0, 1, 1]).detected_indices
      ≠ [] ∧
    ((process_output sampleSvmDC false [1/2, 1/2] [sampleSvmEval] [0, 0, 1, 1]).detected = true ↔
      ((∀ a ∈ (process_output sampleSvmDC false [1/2, 1/2] [sampleSvmEval]
          [0, 0, 1, 1]).detected_indices,
        ∀ b ∈ (process_output sampleSvmDC false [1/2, 1/2] [sampleSvmEval]
          [0, 0, 1, 1]).detected_indices, a = b) ∧
       (∀ q ∈ (process_output sampleSvmDC false [1/2, 1/2] [sampleSvmEval]
          [0, 0, 1, 1]).probs, 0 < q))) ∧
    (process_output sampleSvmDC false [1/2, 1/2] [sampleSvmEval] [0, 0, 1, 1]).mean_prob =
      (if (process_output sampleSvmDC false [1/2, 1/2] [sampleSvmEval] [0, 0, 1, 1]).detected
          = true
       then (process_output sampleSvmDC false [1/2, 1/2] [sampleSvmEval] [0, 0, 1, 1]).probs.sum /
         (((process_output sampleSvmDC false [1/2, 1/2] [sampleSvmEval]
            [0, 0, 1, 1]).probs.length : ℚ))
       else 0) :=
  ⟨by norm_num [process_output, poLoop, poStep, poAppend, initAcc, npArgmax, npArgmaxAux,
      sampleSvmDC, sampleSvmEval, svmProb, clamp01],
   (C1_fusion sampleSvmDC false [1/2, 1/2] [sampleSvmEval] [0, 0, 1, 1]
     (by norm_num [process_output, poLoop, poStep, poAppend, initAcc, npArgmax, npArgmaxAux,
       sampleSvmDC, sampleSvmEval, svmProb, clamp01])).1,
   (C1_fusion sampleSvmDC false [1/2, 1/2] [sampleSvmEval] [0, 0, 1, 1]
     (by norm_num [process_output, poLoop, poStep, poAppend, initAcc, npArgmax, npArgmaxAux,
       sampleSvmDC, sampleSvmEval, svmProb, clamp01])).2⟩

/-- Claim C2: for a kNN classifier whose predicted class has training count
`k > 0`, with `first_run` the leading run of same-class neighbors in
distance order and `d` the nearest-neighbor distance, the probability
computed by `process_output` is
`clamp(0,1, 2*first_run/k - 0.5) * clamp(0,1, 2.5 - 3*d)`; in particular
`k = 10`, `first_run = 7`, `d = 0.4` gives exactly 0.9. -/
theorem C2_knn_rule (fitDim : ℕ) (y : List ℕ) (cns : List String) (stats : List ClassStat)
    (row out : List ℚ) (knei : ℕ → List ℚ × List ℕ) (bbox : List ℤ) (debug : Bool)
    (best k first_run : ℕ) (d : ℚ)
    (hbest : best = npArgmax row)
    (hk : k = (stats.getD best ⟨0⟩).embeddings)
    (hkpos : 0 < k)
    (hrun : first_run = leadingRun y best (knei k).2)
    (hd : d = (knei k).1.getD 0 0)
    (hlen : out.length = fitDim) :
    (process_output ⟨[Clf.knn fitDim y], ["kNN"], [fitDim], some cns, some stats⟩
        debug out [⟨row, knei⟩] bbox).probs =
      [clamp01 (2 * (first_run : ℚ) / (k : ℚ) - 1/2) * clamp01 (5/2 - d * 3)] ∧
    clamp01 (2 * (7 : ℚ) / (10 : ℚ) - 1/2) * clamp01 (5/2 - (2/5) * 3) = 9/10 := by
  subst hbest hk hrun hd
  constructor
  · simp [process_output, poLoop, poStep, poAppend, initAcc, knnProb, hlen]
  · norm_num [clamp01]

/-- Witness for C2: a concrete kNN classifier with `k = 10`, a leading run
of 7 same-class neighbors and nearest distance 0.4 yields probability
exactly 9/10. -/
theorem C2_knn_rule_witness :
    (0 : ℕ) < 10 ∧
    (([0, 0, 0] : List ℚ).length = 3) ∧
    (10 = ((([⟨10⟩, ⟨5⟩] : List ClassStat).getD (npArgmax [9/10, 1/10]) ⟨0⟩).embeddings)) ∧
    (process_output ⟨[Clf.knn 3 yW], ["kNN"], [3], some ["alice", "bob"], some [⟨10⟩, ⟨5⟩]⟩
        false [0, 0, 0] [⟨[9/10, 1/10], kneiW⟩] [0, 0, 1, 1]).probs = [9/10] := by
  have hbest : npArgmax [(9 : ℚ)/10, 1/10] = 0 := by
    norm_num [npArgmax, npArgmaxAux]
  have hk : (10 : ℕ) = ((([⟨10⟩, ⟨5⟩] : List ClassStat).getD
      (npArgmax [(9 : ℚ)/10, 1/10]) ⟨0⟩).embeddings) := by
    rw [hbest]; rfl
  have h := (C2_knn_rule 3 yW ["alice", "bob"] [⟨10⟩, ⟨5⟩] [9/10, 1/10] [0, 0, 0] kneiW
    [0, 0, 1, 1] false (npArgmax [(9 : ℚ)/10, 1/10]) 10
    (leadingRun yW (npArgmax [(9 : ℚ)/10, 1/10]) (kneiW 10).2)
    ((kneiW 10).1.getD 0 0) rfl hk (by norm_num) rfl rfl rfl).1
  refine ⟨by norm_num, rfl, hk, ?_⟩
  rw [h, hbest]
  norm_num [leadingRun, kneiW, yW, clamp01]

/-- Claim C3: for an SVM classifier, the probability computed by
`process_output` is `clamp(0,1, 10*p)` where `p` is the arg-max class
probability from `predict_proba`; in particular 0.05 gives 0.5, 0.12 gives
1.0 and 0.0 gives 0.0. -/
theorem C3_svm_rule (sf : ℕ) (cns : List String) (stats : List ClassStat)
    (row out : List ℚ) (knei : ℕ → List ℚ × List ℕ) (bbox : List ℤ) (debug : Bool)
    (p : ℚ)
    (hp : p = row.getD (npArgmax row) 0)
    (hlen : out.length = sf) :
    (process_output ⟨[Clf.svm sf], ["SVM"], [sf], some cns, some stats⟩
        debug out [⟨row, knei⟩] bbox).probs = [clamp01 (p * 10)] ∧
    clamp01 ((1/20 : ℚ) * 10) = 1/2 ∧ clamp01 ((3/25 : ℚ) * 10) = 1 ∧
    clamp01 ((0 : ℚ) * 10) = 0 := by
  subst hp
  refine ⟨?_, by norm_num [clamp01], by norm_num [clamp01], by norm_num [clamp01]⟩
  simp [process_output, poLoop, poStep, poAppend, initAcc, svmProb, hlen]

/-- Witness for C3: an SVM whose arg-max probability is 0.05 contributes
exactly 0.5. -/
theorem C3_svm_rule_witness :
    (([1/2, 1/2] : List ℚ).length = 2) ∧
    (process_output ⟨[Clf.svm 2], ["SVM"], [2], some ["alice", "bob"], some [⟨3⟩, ⟨3⟩]⟩
        false [1/2, 1/2] [⟨[3/100, 1/20], fun _ => ([], [])⟩] [0, 0, 1, 1]).probs = [1/2] := by
  have h := (C3_svm_rule 2 ["alice", "bob"] [⟨3⟩, ⟨3⟩] [3/100, 1/20] [1/2, 1/2]
    (fun _ => ([], [])) [0, 0, 1, 1] false
    (([3/100, 1/20] : List ℚ).getD (npArgmax [3/100, 1/20]) 0) rfl rfl).1
  refine ⟨rfl, ?_⟩
  rw [h]
  norm_num [npArgmax, npArgmaxAux, clamp01]

/-- Counterexample to claim C4's "still usable" clause: loading two
artifacts with different class names over a previously loaded ensemble
raises the consistency error and leaves the old `DetectorClassifiers`
object in place — but `use_classifiers` was reset to `false` before the
loop, so classification is disabled: `process_frame` now returns empty
overlays for any frame. -/
theorem C4_counterexample :
    (load_classifiers prevState mismatchArtifacts).2 =
      some "Different class names in classifiers" ∧
    prevState.use_classifiers = true ∧
    (load_classifiers prevState mismatchArtifacts).1.classifiers = prevDC ∧
    (load_classifiers prevState mismatchArtifacts).1.use_classifiers = false ∧
    process_frame (load_classifiers prevState mismatchArtifacts).1 [[0, 0, 10, 10]] [[1, 1]]
      (fun _ => [sampleSvmEval]) = ([], []) := by
  refine ⟨?_, rfl, ?_, ?_, ?_⟩ <;>
    simp [load_classifiers, loadLoop, loadOne, emptyClassifiers, prevState, prevDC,
      mismatchArtifacts, artA, artB, process_frame, classifierNameOf, embeddingSizeOf]

/-- Claim C4 as amended: if any artifact after the first disagrees with the
first on class names or class stats, the whole load raises the consistency
error (`RuntimeError`, which the spec names `ConsistencyError`) and aborts
with no partial ensemble installed: the previously loaded
`DetectorClassifiers` is left in place, but `use_classifiers` is reset to
`false`, so classification stays disabled until a successful reload. -/
theorem C4_abort (st : DetectorState) (a b : Artifact) (rest : List Artifact)
    (hmd : st.model_dir = true) (hb : b ∈ rest)
    (hmis : b.class_names ≠ a.class_names ∨ b.class_stats ≠ a.class_stats) :
    ((load_classifiers st (a :: rest)).2.isSome = true) ∧
    (load_classifiers st (a :: rest)).1 = { st with use_classifiers := false } := by
  have hfirst : loadOne 0 a emptyClassifiers = Except.ok
      { classifiers := [a.clf]
      , classifier_names := [classifierNameOf 0 a.clf]
      , embedding_sizes := [embeddingSizeOf a.clf]
      , class_names := some a.class_names
      , class_stats := some a.class_stats } := by
    simp [loadOne, emptyClassifiers]
  obtain ⟨e, he⟩ := loadLoop_mismatch rest 1
    { classifiers := [a.clf]
    , classifier_names := [classifierNameOf 0 a.clf]
    , embedding_sizes := [embeddingSizeOf a.clf]
    , class_names := some a.class_names
    , class_stats := some a.class_stats } a b rfl rfl hb hmis
  have hloop : loadLoop 0 emptyClassifiers (a :: rest) = Except.error e := by
    simp [loadLoop, hfirst, he]
  unfold load_classifiers
  rw [hmd]
  simp [hloop]

/-- Witness for the amended C4: the concrete mismatching pair of artifacts
aborts the load and leaves the detector with `use_classifiers = false`. -/
theorem C4_abort_witness :
    prevState.model_dir = true ∧
    artB ∈ [artB] ∧
    artB.class_names ≠ artA.class_names ∧
    ((load_classifiers prevState (artA :: [artB])).2.isSome = true) ∧
    (load_classifiers prevState (artA :: [artB])).1 =
      { prevState with use_classifiers := false } := by
  have h := C4_abort prevState artA artB [artB] rfl (by simp)
    (Or.inl (by simp [artA, artB]))
  exact ⟨rfl, by simp, by simp [artA, artB], h.1, h.2⟩

/-- Counterexample to claim C7's "bounding boxes are still returned" clause:
after loading an empty artifact directory, `use_classifiers` is `false`
and `process_frame` returns empty overlay and label lists even though the
external detector produced one bounding box. -/
theorem C7_counterexample :
    ((load_classifiers ⟨true, false, emptyClassifiers, false⟩ []).1.use_classifiers = false) ∧
    process_frame (load_classifiers ⟨true, false, emptyClassifiers, false⟩ []).1
      [[0, 0, 10, 10]] [[1]] (fun _ => []) = ([], []) ∧
    ([[0, 0, 10, 10]] : List (List ℤ)) ≠ [] := by
  refine ⟨rfl, rfl, by simp⟩

/-- Claim C7 as amended: an empty ensemble is a valid detection-only mode,
not an error — scoring any embedding against an empty classifier list gives
`detected = false` with confidence 0 and (outside debug mode) no label —
but the orchestrator's per-frame processing does NOT return the externally
detected bounding boxes: with `use_classifiers = false` it returns empty
overlay and label lists, dropping the boxes. -/
theorem C7_detection_only (st : DetectorState) (boxes : List (List ℤ))
    (embeddings : List (List ℚ)) (evals : List ℚ → List ClfEval)
    (dc : DetectorClassifiers) (out : List ℚ) (evals2 : List ClfEval) (bbox : List ℤ)
    (huse : st.use_classifiers = false) (hemp : dc.classifiers = []) :
    process_frame st boxes embeddings evals = ([], []) ∧
    (process_output dc false out evals2 bbox).detected = false ∧
    (process_output dc false out evals2 bbox).mean_prob = 0 ∧
    (process_output dc false out evals2 bbox).label = none := by
  refine ⟨by simp [process_frame, huse], ?_, ?_, ?_⟩ <;>
    simp [process_output, hemp, poLoop, initAcc]

/-- Witness for the amended C7: the freshly-loaded empty detector drops a
concrete box, and scoring a concrete embedding against the empty ensemble
yields `detected = false`, confidence 0 and no label. -/
theorem C7_detection_only_witness :
    (⟨true, false, emptyClassifiers, false⟩ : DetectorState).use_classifiers = false ∧
    emptyClassifiers.classifiers = [] ∧
    process_frame ⟨true, false, emptyClassifiers, false⟩ [[0, 0, 10, 10]] [[1]]
      (fun _ => []) = ([], []) ∧
    (process_output emptyClassifiers false [1] [] [0, 0, 1, 1]).detected = false ∧
    (process_output emptyClassifiers false [1] [] [0, 0, 1, 1]).mean_prob = 0 ∧
    (process_output emptyClassifiers false [1] [] [0, 0, 1, 1]).label = none := by
  have h := C7_detection_only ⟨true, false, emptyClassifiers, false⟩ [[0, 0, 10, 10]] [[1]]
    (fun _ => []) emptyClassifiers [1] [] [0, 0, 1, 1] rfl rfl
  exact ⟨rfl, rfl, h.1, h.2.1, h.2.2.1, h.2.2.2⟩

/-- Claim C9: a classifier whose `embedding_size` does not match the
embedding's length is skipped and excluded from fusion while the remaining
classifiers still contribute: `process_output` over the ensemble containing
the mismatching classifier equals `process_output` over the ensemble with
that classifier removed — the frame is never aborted and a verdict is still
produced. -/
theorem C9_shape_mismatch (cs1 cs2 : List Clf) (ns1 ns2 : List String) (es1 es2 : List ℕ)
    (evs1 evs2 : List ClfEval) (bad : Clf) (bn : String) (be : ℕ) (bev : ClfEval)
    (cn : Option (List String)) (cst : Option (List ClassStat)) (debug : Bool)
    (out : List ℚ) (bbox : List ℤ)
    (h1 : cs1.length = ns1.length) (h2 : cs1.length = es1.length)
    (h3 : cs1.length = evs1.length)
    (hbad : out.length ≠ be) :
    process_output ⟨cs1 ++ bad :: cs2, ns1 ++ bn :: ns2, es1 ++ be :: es2, cn, cst⟩ debug out
        (evs1 ++ bev :: evs2) bbox =
      process_output ⟨cs1 ++ cs2, ns1 ++ ns2, es1 ++ es2, cn, cst⟩ debug out
        (evs1 ++ evs2) bbox := by
  simp only [process_output]
  rw [poLoop_append cn cst debug out cs1 ns1 es1 evs1 _ _ _ _ initAcc h1 h2 h3,
    poLoop_skip cn cst debug out bad bn be bev cs2 ns2 es2 evs2 _ hbad,
    ← poLoop_append cn cst debug out cs1 ns1 es1 evs1 cs2 ns2 es2 evs2 initAcc h1 h2 h3]

/-- Witness for C9: an embedding of length 2 skips a classifier expecting
length 3; the result equals that of the ensemble without it. -/
theorem C9_shape_mismatch_witness :
    (([1, 1] : List ℚ).length ≠ 3) ∧
    process_output ⟨[Clf.svm 3, Clf.svm 2], ["SVM", "SVM"], [3, 2], some ["a", "b"],
        some [⟨1⟩, ⟨1⟩]⟩ false [1, 1]
        [⟨[1], fun _ => ([], [])⟩, ⟨[1/4, 3/4], fun _ => ([], [])⟩] [0, 0, 1, 1] =
      process_output ⟨[Clf.svm 2], ["SVM"], [2], some ["a", "b"], some [⟨1⟩, ⟨1⟩]⟩
        false [1, 1] [⟨[1/4, 3/4], fun _ => ([], [])⟩] [0, 0, 1, 1] :=
  ⟨by simp,
   C9_shape_mismatch [] [Clf.svm 2] [] ["SVM"] [] [2] [] [⟨[1/4, 3/4], fun _ => ([], [])⟩]
     (Clf.svm 3) "SVM" 3 ⟨[1], fun _ => ([], [])⟩ (some ["a", "b"]) (some [⟨1⟩, ⟨1⟩])
     false [1, 1] [0, 0, 1, 1] rfl rfl rfl (by simp)⟩

end Svod
